import Mathlib

/-!
Verification of the HandTracking repository: a shallow embedding of the
gesture classifier, the drawing-canvas state machine, and the bird-hit game
loop, with theorems settling the specification claims.

Coordinates are modelled as rationals (the source uses JS numbers), and a
JS expression that can throw (indexing past the end of the landmark array
and then reading `.y` of `undefined`) is modelled as an `Option` result,
with `none` standing for the thrown exception.
-/

/-- A 2D point, as produced by the hand-landmark model (normalized
coordinates) or as a canvas-space point. -/
structure Pt where
  x : ℚ
  y : ℚ
deriving DecidableEq

/-- Reading `landmarks[i].y` in JS: `none` when the index is out of range
(the field access on `undefined` throws a TypeError). -/
def ptY (lm : List Pt) (i : ℕ) : Option ℚ :=
  (lm[i]?).map Pt.y

/-- One comparison `landmarks[tip].y > landmarks[tip - 2].y + 0.03` from the
source (`handGameUtils.ts` line 36 and `HandCanvas.tsx` lines 209-211, 217-219). -/
def fingerDown (lm : List Pt) (tip : ℕ) : Option Bool :=
  (ptY lm tip).bind fun yt =>
    (ptY lm (tip - 2)).map fun ym => decide (ym + 3/100 < yt)

/-- The short-circuiting `[12, 16, 20].every(tip => ...)` from
`isOnlyOneFingerUp` (`handGameUtils.ts` lines 35-37). -/
def othersDownE (lm : List Pt) : Option Bool :=
  (fingerDown lm 12).bind fun d12 =>
    if d12 then
      (fingerDown lm 16).bind fun d16 =>
        if d16 then fingerDown lm 20 else some false
    else some false

/-- Embedding of `isOnlyOneFingerUp` (`handGameUtils.ts` lines 33-39, textually
identical in `HandCanvas.tsx` lines 214-221): index fingertip above its PIP
joint by more than 0.03, the other three fingertips below theirs. -/
def isOnlyOneFingerUpE (lm : List Pt) : Option Bool :=
  (ptY lm 8).bind fun y8 =>
    (ptY lm 6).bind fun y6 =>
      (othersDownE lm).map fun others =>
        decide (y8 < y6 - 3/100) && others

/-- Embedding of `isHandClosed` (`HandCanvas.tsx` lines 205-212): the
short-circuiting `[8, 12, 16, 20].every(tip => ...)`. -/
def isHandClosedE (lm : List Pt) : Option Bool :=
  (fingerDown lm 8).bind fun d8 =>
    if d8 then othersDownE lm else some false

/-- The discrete gesture values of the spec. -/
inductive Gesture where
  | noHand : Gesture
  | closed : Gesture
  | oneFinger : Gesture
  | other : Gesture
deriving DecidableEq

/-- The gesture precedence of `HandCanvas.tsx` lines 65-99: no landmarks is
the no-hand case; otherwise `isHandClosed` wins over `isOnlyOneFingerUp`,
and anything else is `other`.  Both predicates are evaluated eagerly
(lines 83-84), as in the source. -/
def classifyE (results : Option (List Pt)) : Option Gesture :=
  match results with
  | none => some Gesture.noHand
  | some lm =>
      (isHandClosedE lm).bind fun c =>
        (isOnlyOneFingerUpE lm).map fun f =>
          if c then Gesture.closed else if f then Gesture.oneFinger else Gesture.other

/-- Modelled from claim C3's wording only (not from the source): each
fingertip of {8, 12, 16, 20} lies below its mid-joint of {6, 10, 14, 18}
by AT LEAST 0.03 (a non-strict margin).  The source uses a strict margin. -/
def closedByAtLeastMargin (lm : List Pt) : Bool :=
  [(8, 6), (12, 10), (16, 14), (20, 18)].all fun p =>
    match lm[p.1]?, lm[p.2]? with
    | some pt, some pm => decide (pm.y + 3/100 ≤ pt.y)
    | _, _ => false

/-- Screen-space fingertip of a landmark list: `landmarks[8]` scaled by the
canvas size 640x480 (`HandCanvas.tsx` lines 78-80).  Out-of-range index is
given a dummy value; theorems only use it when index 8 exists. -/
def tipScreen (lm : List Pt) : Pt :=
  match lm[8]? with
  | some p => ⟨p.x * 640, p.y * 480⟩
  | none => ⟨0, 0⟩

/-- The mutable drawing state of the canvas component: `pathRef` and the
`drawing` flag (`HandCanvas.tsx` lines 25-26). -/
structure DrawState where
  path : List Pt
  drawing : Bool
deriving DecidableEq

/-- One `onResults` evaluation of the drawing variant (`HandCanvas.tsx`
lines 56-139), restricted to its state effect on `path` and `drawing`:
no landmarks clears the drawing flag; otherwise the fingertip is read,
gestures are classified, closed/other force `drawing := false`, and the
drawing block either starts a fresh one-point path or appends. -/
def onResultsDraw (s : DrawState) (results : Option (List Pt)) : Option DrawState :=
  match results with
  | none => some { s with drawing := false }
  | some lm =>
      (lm[8]?).bind fun tip =>
        (isHandClosedE lm).bind fun isClosed =>
          (isOnlyOneFingerUpE lm).map fun isOneFinger =>
            let x := tip.x * 640
            let y := tip.y * 480
            let d1 := if isClosed then false else if isOneFinger then s.drawing else false
            if isOneFinger then
              if d1 then ⟨s.path ++ [⟨x, y⟩], true⟩ else ⟨[⟨x, y⟩], true⟩
            else ⟨s.path, false⟩

/-- Processing a sequence of model results frame by frame. -/
def processFrames (s : DrawState) (fs : List (Option (List Pt))) : Option DrawState :=
  fs.foldlM onResultsDraw s

/-- Clear-button geometry (`HandCanvas.tsx` lines 6-11). -/
def BUTTON_X : ℚ := 640 - 90 - 16

/-- Clear-button geometry (`HandCanvas.tsx` lines 6-11). -/
def BUTTON_Y : ℚ := 480 - 40 - 16

/-- Embedding of `isFingerInButton` (`HandCanvas.tsx` lines 13-18). -/
def isFingerInButton (x y : ℚ) : Bool :=
  decide (BUTTON_X < x) && decide (x < BUTTON_X + 90) &&
    decide (BUTTON_Y < y) && decide (y < BUTTON_Y + 40)

/-- Embedding of `handleClear` (`HandCanvas.tsx` lines 32-34): the path is
replaced by the empty list, whatever it was. -/
def handleClear (_path : List Pt) : List Pt := []

/-- Embedding of `handleCanvasClick` (`HandCanvas.tsx` lines 250-262): a
pointer click at canvas coordinates clears the path exactly when it lands
inside the button rectangle. -/
def handleCanvasClick (cx cy : ℚ) (path : List Pt) : List Pt :=
  if isFingerInButton cx cy then handleClear path else path

/-- One `onResults` evaluation of the legacy drawing variant
(`part_002` lines 524-580), restricted to its state effect: the fingertip
is read, the finger-in-button check clears the path, and then the drawing
block unconditionally starts or extends the path with the fingertip. -/
def onResultsLegacy (s : DrawState) (results : Option (List Pt)) : Option DrawState :=
  match results with
  | none => some { s with drawing := false }
  | some lm =>
      (lm[8]?).map fun tip =>
        let x := tip.x * 640
        let y := tip.y * 480
        let p1 := if isFingerInButton x y then handleClear s.path else s.path
        if s.drawing then ⟨p1 ++ [⟨x, y⟩], true⟩ else ⟨[⟨x, y⟩], true⟩

/-- A moving hit-target of the bird-hit variant (`handGameUtils.ts` lines 3-10). -/
structure Bird where
  x : ℚ
  y : ℚ
  vx : ℚ
  vy : ℚ
  radius : ℚ
  hit : Bool
deriving DecidableEq

/-- Constant from `handGameUtils.ts` line 12 and `part_001` line 25. -/
def BIRD_RADIUS : ℚ := 28

/-- Constant from `handGameUtils.ts` line 13 and `part_001` line 26. -/
def BIRD_SPEED : ℚ := 9/2

/-- Constant from `part_001` line 24. -/
def GAME_DURATION : ℤ := 60

/-- Embedding of `randomBird` (`handGameUtils.ts` lines 16-27).  The three
`Math.random()` outcomes are passed in explicitly: `fromLeft` is the result
of the `> 0.5` coin flip, and `ry`, `rv` are the raw samples (in `[0, 1)`)
used for the vertical position and drift. -/
def randomBird (w h : ℚ) (fromLeft : Bool) (ry rv : ℚ) : Bird :=
  { x := if fromLeft then -BIRD_RADIUS else w + BIRD_RADIUS
    y := 80 + ry * (h - 160)
    vx := if fromLeft then BIRD_SPEED else -BIRD_SPEED
    vy := (rv - 1/2) * (6/5)
    radius := BIRD_RADIUS
    hit := false }

/-- Squared Euclidean distance: the quantity under the `Math.sqrt` of `dist`
(`handGameUtils.ts` lines 29-31). -/
def distSq (x1 y1 x2 y2 : ℚ) : ℚ :=
  (x1 - x2) ^ 2 + (y1 - y2) ^ 2

/-- The comparison `dist(x1, y1, x2, y2) < t` of the source, rendered without
square roots: for a nonnegative radicand, `Real.sqrt s < t` iff
`0 < t ∧ s < t^2` (proved below as `distLt_iff_sqrt`). -/
def distLt (x1 y1 x2 y2 t : ℚ) : Bool :=
  decide (0 < t ∧ distSq x1 y1 x2 y2 < t ^ 2)

/-- The hit condition of one bird against the finger position
(`part_001` line 201): not yet hit, and within `radius + 18`. -/
def birdQualifies (x y : ℚ) (b : Bird) : Bool :=
  !b.hit && distLt x y b.x b.y (b.radius + 18)

/-- An ephemeral score-pop marker (`part_001` lines 39-41, 204-207). -/
structure Pop where
  x : ℚ
  y : ℚ
  value : ℤ
  time : ℤ
deriving DecidableEq

/-- The game state touched by the hit test: the bird list, the score, and
the pop-effect list (`part_001` lines 32, 39-42). -/
structure GameState where
  birds : List Bird
  score : ℤ
  pops : List Pop
deriving DecidableEq

/-- The `birdsRef.current.forEach` hit loop (`part_001` lines 200-209): every
not-yet-hit bird within tolerance of `(x, y)` is marked hit, the score gains
1 per such bird, and one pop of value 1 is appended at each such bird's
position (the queued `setScore`/`setPop` functional updates compose in
order). -/
def hitBirds (x y : ℚ) (now : ℤ) (s : GameState) : GameState :=
  { birds := s.birds.map fun b =>
      if birdQualifies x y b then { b with hit := true } else b
    score := s.score + ((s.birds.filter (birdQualifies x y)).length : ℤ)
    pops := s.pops ++ (s.birds.filter (birdQualifies x y)).map fun b =>
      Pop.mk b.x b.y 1 now }

/-- One `hands.onResults` evaluation of the bird-hit variant (`part_001`
lines 184-211), restricted to its state effect: nothing happens unless the
session is started and not game-over; no landmarks leaves the state alone;
otherwise the gesture is evaluated and, only for one-finger-up, the mirrored
fingertip `((1 - tip.x) * w, tip.y * h)` is tested against every bird. -/
def onResultsGame (started gameOver : Bool) (w h : ℚ) (now : ℤ)
    (s : GameState) (results : Option (List Pt)) : Option GameState :=
  if started = false ∨ gameOver = true then some s
  else
    match results with
    | none => some s
    | some lm =>
        (isOnlyOneFingerUpE lm).bind fun isOneFinger =>
          if isOneFinger then
            (lm[8]?).map fun tip =>
              hitBirds ((1 - tip.x) * w) (tip.y * h) now s
          else some s

/-- One position update of the game tick (`part_001` lines 139-142):
`bird.x += bird.vx; bird.y += bird.vy`. -/
def moveBird (b : Bird) : Bird :=
  { b with x := b.x + b.vx, y := b.y + b.vy }

/-- The tick filter (`part_001` lines 144-151): a bird survives iff it is
inside the extended bounds (note the constant `BIRD_RADIUS`, not the bird's
own radius) and has not been hit. -/
def keepBird (w h : ℚ) (b : Bird) : Bool :=
  decide (-BIRD_RADIUS < b.x) && decide (b.x < w + BIRD_RADIUS) &&
    decide (-BIRD_RADIUS < b.y) && decide (b.y < h + BIRD_RADIUS) && !b.hit

/-- The movement-and-cull part of one `gameInterval` tick (`part_001`
lines 137-151): all birds move by their velocity, then the filter runs.
The spawn push (lines 153-156) appends a fresh bird afterwards and plays no
part in removal. -/
def gameTickBirds (w h : ℚ) (birds : List Bird) : List Bird :=
  (birds.map moveBird).filter (keepBird w h)

/-- The pop-effect cull (`part_001` line 123): a pop survives while its age
is under 700 ms. -/
def popKeep (now : ℤ) (p : Pop) : Bool :=
  decide (now - p.time < 700)

/-- The session bookkeeping of the bird-hit variant (`part_001`
lines 32-38). -/
structure Session where
  score : ℤ
  timer : ℤ
  started : Bool
  gameOver : Bool
deriving DecidableEq

/-- One firing of the one-second `timerInterval` (`part_001` lines 71-87).
The interval is registered only while `started && !gameOver` (line 72), so a
tick outside that guard leaves the state unchanged; inside it, a timer at 1
or below becomes 0 with game-over set, otherwise the timer decrements. -/
def timerTick (s : Session) : Session :=
  if s.started && !s.gameOver then
    if s.timer ≤ 1 then { s with timer := 0, gameOver := true }
    else { s with timer := s.timer - 1 }
  else s

/-- The session produced by pressing Start (`part_001` lines 322-325 with
`handleClear`, lines 61-68): score 0, a full timer, started, not game-over. -/
def startSession : Session :=
  { score := 0, timer := GAME_DURATION, started := true, gameOver := false }

/-- A 21-point landmark set classifying as one-finger-up: the index tip
(point 8) well above its PIP joint (point 6), the other tips well below. -/
def lmOne : List Pt :=
  [⟨0, 1/2⟩, ⟨0, 1/2⟩, ⟨0, 1/2⟩, ⟨0, 1/2⟩, ⟨0, 1/2⟩, ⟨0, 1/2⟩,
   ⟨0, 1/2⟩, ⟨0, 1/2⟩, ⟨1/4, 1/5⟩, ⟨0, 1/2⟩, ⟨0, 1/2⟩, ⟨0, 1/2⟩,
   ⟨0, 4/5⟩, ⟨0, 1/2⟩, ⟨0, 1/2⟩, ⟨0, 1/2⟩, ⟨0, 4/5⟩, ⟨0, 1/2⟩,
   ⟨0, 1/2⟩, ⟨0, 1/2⟩, ⟨0, 4/5⟩]

/-- A 21-point landmark set with every fingertip below its mid joint by a
margin of 0.3, classifying as closed. -/
def lmClosed : List Pt :=
  [⟨0, 1/2⟩, ⟨0, 1/2⟩, ⟨0, 1/2⟩, ⟨0, 1/2⟩, ⟨0, 1/2⟩, ⟨0, 1/2⟩,
   ⟨0, 1/2⟩, ⟨0, 1/2⟩, ⟨0, 4/5⟩, ⟨0, 1/2⟩, ⟨0, 1/2⟩, ⟨0, 1/2⟩,
   ⟨0, 4/5⟩, ⟨0, 1/2⟩, ⟨0, 1/2⟩, ⟨0, 1/2⟩, ⟨0, 4/5⟩, ⟨0, 1/2⟩,
   ⟨0, 1/2⟩, ⟨0, 1/2⟩, ⟨0, 4/5⟩]

/-- A 21-point landmark set at the exact margin boundary: every fingertip is
exactly 0.03 below its mid joint (tips at y = 53/100, mids at y = 1/2). -/
def lmBoundary : List Pt :=
  [⟨0, 1/2⟩, ⟨0, 1/2⟩, ⟨0, 1/2⟩, ⟨0, 1/2⟩, ⟨0, 1/2⟩, ⟨0, 1/2⟩,
   ⟨0, 1/2⟩, ⟨0, 1/2⟩, ⟨0, 53/100⟩, ⟨0, 1/2⟩, ⟨0, 1/2⟩, ⟨0, 1/2⟩,
   ⟨0, 53/100⟩, ⟨0, 1/2⟩, ⟨0, 1/2⟩, ⟨0, 1/2⟩, ⟨0, 53/100⟩, ⟨0, 1/2⟩,
   ⟨0, 1/2⟩, ⟨0, 1/2⟩, ⟨0, 53/100⟩]

/-- A 21-point landmark set whose index fingertip maps to canvas point
(580, 450), inside the clear-button rectangle. -/
def lmButton : List Pt :=
  [⟨0, 1/2⟩, ⟨0, 1/2⟩, ⟨0, 1/2⟩, ⟨0, 1/2⟩, ⟨0, 1/2⟩, ⟨0, 1/2⟩,
   ⟨0, 1/2⟩, ⟨0, 1/2⟩, ⟨29/32, 15/16⟩, ⟨0, 1/2⟩, ⟨0, 1/2⟩, ⟨0, 1/2⟩,
   ⟨0, 4/5⟩, ⟨0, 1/2⟩, ⟨0, 1/2⟩, ⟨0, 1/2⟩, ⟨0, 4/5⟩, ⟨0, 1/2⟩,
   ⟨0, 1/2⟩, ⟨0, 1/2⟩, ⟨0, 4/5⟩]

/-- A one-finger-up 21-point landmark set whose mirrored fingertip lands at
screen position (105, 103) on a 640x480 canvas. -/
def lmHit : List Pt :=
  [⟨0, 1/2⟩, ⟨0, 1/2⟩, ⟨0, 1/2⟩, ⟨0, 1/2⟩, ⟨0, 1/2⟩, ⟨0, 1/2⟩,
   ⟨0, 1/2⟩, ⟨0, 1/2⟩, ⟨107/128, 103/480⟩, ⟨0, 1/2⟩, ⟨0, 1/2⟩, ⟨0, 1/2⟩,
   ⟨0, 4/5⟩, ⟨0, 1/2⟩, ⟨0, 1/2⟩, ⟨0, 1/2⟩, ⟨0, 4/5⟩, ⟨0, 1/2⟩,
   ⟨0, 1/2⟩, ⟨0, 1/2⟩, ⟨0, 4/5⟩]

lemma distSq_nonneg (x1 y1 x2 y2 : ℚ) : 0 ≤ distSq x1 y1 x2 y2 := by
  unfold distSq
  positivity

/-- Justification that `distLt` renders the source's `Math.sqrt`-based
comparison `dist(x1, y1, x2, y2) < t` faithfully. -/
lemma distLt_iff_sqrt (x1 y1 x2 y2 t : ℚ) :
    distLt x1 y1 x2 y2 t = true ↔
      Real.sqrt ((distSq x1 y1 x2 y2 : ℚ) : ℝ) < (t : ℝ) := by
  unfold distLt
  rw [decide_eq_true_iff]
  constructor
  · rintro ⟨ht, hlt⟩
    have h1 : (0 : ℝ) < (t : ℝ) := by exact_mod_cast ht
    rw [Real.sqrt_lt' h1]
    exact_mod_cast hlt
  · intro h
    by_cases ht : 0 < t
    · have h1 : (0 : ℝ) < (t : ℝ) := by exact_mod_cast ht
      rw [Real.sqrt_lt' h1] at h
      refine ⟨ht, ?_⟩
      exact_mod_cast h
    · exfalso
      have h2 : (t : ℝ) ≤ 0 := by exact_mod_cast not_lt.mp ht
      have h3 := Real.sqrt_nonneg ((distSq x1 y1 x2 y2 : ℚ) : ℝ)
      linarith

lemma oneFingerUp_destruct (lm : List Pt) (h : isOnlyOneFingerUpE lm = some true) :
    ∃ p8 p6, lm[8]? = some p8 ∧ lm[6]? = some p6 ∧
      p8.y < p6.y - 3/100 ∧ othersDownE lm = some true := by
  simp only [isOnlyOneFingerUpE, ptY, Option.bind_eq_some, Option.map_eq_some'] at h
  obtain ⟨y8, ⟨p8, hp8, hy8⟩, y6, ⟨p6, hp6, hy6⟩, others, hothers, heq⟩ := h
  rw [Bool.and_eq_true, decide_eq_true_iff] at heq
  subst hy8
  subst hy6
  exact ⟨p8, p6, hp8, hp6, heq.1, heq.2 ▸ hothers⟩

lemma oneFingerUp_handClosed (lm : List Pt) (h : isOnlyOneFingerUpE lm = some true) :
    isHandClosedE lm = some false := by
  obtain ⟨p8, p6, hp8, hp6, hlt, _⟩ := oneFingerUp_destruct lm h
  have hfd : fingerDown lm 8 = some false := by
    simp only [fingerDown, ptY, hp8, hp6, Option.map_some', Option.some_bind]
    have : ¬ (p6.y + 3/100 < p8.y) := by linarith
    simp [this]
  simp [isHandClosedE, hfd]

lemma onResultsDraw_oneFinger (s : DrawState) (lm : List Pt)
    (h : isOnlyOneFingerUpE lm = some true) :
    onResultsDraw s (some lm) =
      some (if s.drawing then ⟨s.path ++ [tipScreen lm], true⟩
            else ⟨[tipScreen lm], true⟩) := by
  obtain ⟨p8, _, hp8, _, _, _⟩ := oneFingerUp_destruct lm h
  have hcl := oneFingerUp_handClosed lm h
  have htip : tipScreen lm = ⟨p8.x * 640, p8.y * 480⟩ := by
    simp [tipScreen, hp8]
  simp only [onResultsDraw, hp8, hcl, h, Option.some_bind, Option.map_some', htip]
  cases hd : s.drawing <;> simp

lemma processFrames_active (frames : List (List Pt)) :
    ∀ s : DrawState, s.drawing = true →
      (∀ lm ∈ frames, isOnlyOneFingerUpE lm = some true) →
      processFrames s (frames.map some) = some ⟨s.path ++ frames.map tipScreen, true⟩ := by
  induction frames with
  | nil =>
      intro s hs _
      cases s
      simp_all [processFrames]
  | cons f fs ih =>
      intro s hs hall
      have hstep := onResultsDraw_oneFinger s f (hall f (by simp))
      rw [hs] at hstep
      simp only [if_pos] at hstep
      simp only [List.map_cons, processFrames, List.foldlM_cons, hstep]
      have := ih ⟨s.path ++ [tipScreen f], true⟩ rfl (fun lm hm => hall lm (by simp [hm]))
      simp only [processFrames] at this
      simp [this]

lemma moveBird_iterate (k : ℕ) (b : Bird) :
    moveBird^[k] b = ⟨b.x + k * b.vx, b.y + k * b.vy, b.vx, b.vy, b.radius, b.hit⟩ := by
  induction k with
  | zero =>
      cases b
      simp
  | succ n ih =>
      rw [Function.iterate_succ_apply', ih]
      simp only [moveBird, Bird.mk.injEq, and_true]
      constructor <;> push_cast <;> ring

lemma keepBird_iff (w h : ℚ) (b : Bird) :
    keepBird w h b = true ↔
      (-BIRD_RADIUS < b.x ∧ b.x < w + BIRD_RADIUS ∧
        -BIRD_RADIUS < b.y ∧ b.y < h + BIRD_RADIUS ∧ b.hit = false) := by
  simp [keepBird, Bool.and_eq_true, decide_eq_true_iff, and_assoc]

lemma handClosed_destruct (lm : List Pt) (h : isHandClosedE lm = some true) :
    ∃ p8 p6, lm[8]? = some p8 ∧ lm[6]? = some p6 ∧
      p6.y + 3/100 < p8.y ∧ othersDownE lm = some true := by
  simp only [isHandClosedE, Option.bind_eq_some] at h
  obtain ⟨d8, hd8, hif⟩ := h
  cases d8 with
  | false => simp at hif
  | true =>
      simp only [if_pos] at hif
      simp only [fingerDown, ptY, Option.bind_eq_some, Option.map_eq_some'] at hd8
      obtain ⟨y8, ⟨p8, hp8, hy8⟩, y6, ⟨p6, hp6, hy6⟩, hdec⟩ := hd8
      rw [decide_eq_true_iff] at hdec
      subst hy8
      subst hy6
      exact ⟨p8, p6, hp8, hp6, hdec, hif⟩

lemma timerTick_timer_nonneg (s : Session) (h : 0 ≤ s.timer) :
    0 ≤ (timerTick s).timer := by
  unfold timerTick
  split
  · split
    · simp
    · simp
      omega
  · exact h

/-- Claim C8: from a freshly started session (timer 60, score 0), 60 timer
ticks end the game with timer 0 and score 0; the tick that sees timer 1 sets
timer 0 and game-over together; the timer never goes negative; and no tick
ever changes the score. -/
theorem c8_session_timer :
    timerTick^[60] startSession = ⟨0, 0, true, true⟩ ∧
    (∀ s : Session, s.started = true → s.gameOver = false → s.timer = 1 →
      timerTick s = { s with timer := 0, gameOver := true }) ∧
    (∀ k : ℕ, 0 ≤ (timerTick^[k] startSession).timer) ∧
    (∀ s : Session, (timerTick s).score = s.score) := by
  refine ⟨?_, ?_, ?_, ?_⟩
  · norm_num [startSession, GAME_DURATION, timerTick, Function.iterate_succ_apply,
      Function.iterate_zero_apply]
  · intro s h1 h2 h3
    simp [timerTick, h1, h2, h3]
  · intro k
    induction k with
    | zero => norm_num [startSession, GAME_DURATION]
    | succ n ih =>
        rw [Function.iterate_succ_apply']
        exact timerTick_timer_nonneg _ ih
  · intro s
    unfold timerTick
    split
    · split <;> rfl
    · rfl

/-- Witness for C8: one tick of a concrete started session with one second
left ends the game at timer 0 without touching the score. -/
theorem c8_session_timer_witness :
    (Session.mk 41 1 true false).started = true ∧
    (Session.mk 41 1 true false).gameOver = false ∧
    (Session.mk 41 1 true false).timer = 1 ∧
    timerTick ⟨41, 1, true, false⟩ = ⟨41, 0, true, true⟩ :=
  ⟨rfl, rfl, rfl, c8_session_timer.2.1 ⟨41, 1, true, false⟩ rfl rfl rfl⟩

/-- Claim C2 is right and the code is wrong: on a malformed (too short)
landmark list the classifier does not fail closed.  With the empty list,
`landmarks[8]` is `undefined` and reading `.y` throws a TypeError (modelled
as `none`), instead of returning a no-hand result; the same happens in
`isHandClosed`. -/
theorem c2_malformed_throws :
    isOnlyOneFingerUpE [] = none ∧ isHandClosedE [] = none := by
  constructor <;> rfl

/-- Counterexample to claim C3 as stated: a landmark set whose fingertips
each lie below their mid joints by exactly 0.03 satisfies the claim's
"at least 0.03" closed predicate, yet the classifier returns `other`, not
`closed`, because the source compares with a strict margin. -/
theorem c3_counterexample :
    closedByAtLeastMargin lmBoundary = true ∧
    classifyE (some lmBoundary) = some Gesture.other := by
  constructor
  · norm_num [closedByAtLeastMargin, lmBoundary]
  · norm_num [classifyE, isHandClosedE, isOnlyOneFingerUpE, othersDownE, fingerDown,
      ptY, lmBoundary]

/-- Claim C3 (amended: each fingertip below its mid joint by MORE than 0.03,
the margin the source actually computes): such a landmark set is classified
`closed` and never one-finger-up, and the two predicates can never both hold,
since the closed condition on fingertip 8 contradicts the index-up
condition. -/
theorem c3_closed_precedence (lm : List Pt) :
    (isHandClosedE lm = some true →
      classifyE (some lm) = some Gesture.closed ∧
        isOnlyOneFingerUpE lm = some false) ∧
    ¬(isHandClosedE lm = some true ∧ isOnlyOneFingerUpE lm = some true) := by
  have key : isHandClosedE lm = some true →
      classifyE (some lm) = some Gesture.closed ∧
        isOnlyOneFingerUpE lm = some false := by
    intro hc
    obtain ⟨p8, p6, hp8, hp6, hlt, hothers⟩ := handClosed_destruct lm hc
    have hone : isOnlyOneFingerUpE lm = some false := by
      have hnot : ¬ (p8.y < p6.y - 3/100) := by linarith
      simp [isOnlyOneFingerUpE, ptY, hp8, hp6, hothers, hnot]
    refine ⟨?_, hone⟩
    simp [classifyE, hc, hone]
  refine ⟨key, ?_⟩
  rintro ⟨hc, hf⟩
  have h2 := (key hc).2
  rw [h2] at hf
  simp at hf

/-- Witness for the amended C3 at a concrete closed hand. -/
theorem c3_closed_precedence_witness :
    isHandClosedE lmClosed = some true ∧
    (classifyE (some lmClosed) = some Gesture.closed ∧
      isOnlyOneFingerUpE lmClosed = some false) :=
  ⟨by norm_num [isHandClosedE, othersDownE, fingerDown, ptY, lmClosed],
   (c3_closed_precedence lmClosed).1
     (by norm_num [isHandClosedE, othersDownE, fingerDown, ptY, lmClosed])⟩

/-- Counterexample to claim C4 as stated: an in-bounds bird that was just
marked hit is removed by the very next game tick, even though its score pop,
created 30 ms earlier, is still alive (700 ms have not elapsed) — the entity
does not remain in the list until its pop completes. -/
theorem c4_counterexample :
    gameTickBirds 640 480 [⟨100, 100, 9/2, 0, 28, true⟩] = [] ∧
    moveBird ⟨100, 100, 9/2, 0, 28, true⟩ = ⟨209/2, 100, 9/2, 0, 28, true⟩ ∧
    ((-28 : ℚ) < 209/2 ∧ (209/2 : ℚ) < 640 + 28 ∧
      (-28 : ℚ) < 100 ∧ (100 : ℚ) < 480 + 28) ∧
    popKeep 30 ⟨100, 100, 1, 0⟩ = true := by
  refine ⟨?_, ?_, by norm_num, by norm_num [popKeep]⟩
  · norm_num [gameTickBirds, moveBird, keepBird, BIRD_RADIUS]
  · norm_num [moveBird]

/-- Claim C4 (amended): a tick removes a Target Entity exactly when its
updated position leaves the extended bounds or it has been marked hit — a
hit entity is culled at the next tick without waiting for its pop — while
the Score-Pop Effect is culled independently once its 700 ms elapse. -/
theorem c4_removal (w h : ℚ) (birds : List Bird) (b : Bird) :
    (b ∈ gameTickBirds w h birds ↔
      ((∃ b0, b0 ∈ birds ∧ moveBird b0 = b) ∧
        (-BIRD_RADIUS < b.x ∧ b.x < w + BIRD_RADIUS ∧
          -BIRD_RADIUS < b.y ∧ b.y < h + BIRD_RADIUS ∧ b.hit = false))) ∧
    (∀ now : ℤ, ∀ p : Pop, popKeep now p = true ↔ now - p.time < 700) := by
  constructor
  · simp only [gameTickBirds, List.mem_filter, List.mem_map, keepBird_iff]
  · intro now p
    simp [popKeep]

/-- Counterexample to claim C9 as stated: in the legacy drawing variant, the
evaluation whose fingertip (canvas point (580, 450)) lies inside the
clear-button rectangle does clear the non-empty path — but the same
evaluation then appends the fingertip, so it ends with a one-point path, not
an empty one. -/
theorem c9_counterexample :
    isFingerInButton ((29/32 : ℚ) * 640) ((15/16 : ℚ) * 480) = true ∧
    onResultsLegacy ⟨[⟨1, 2⟩], true⟩ (some lmButton) = some ⟨[⟨580, 450⟩], true⟩ ∧
    ([(⟨580, 450⟩ : Pt)] ≠ ([] : List Pt)) := by
  refine ⟨?_, ?_, by simp⟩
  · norm_num [isFingerInButton, BUTTON_X, BUTTON_Y]
  · norm_num [onResultsLegacy, lmButton, handleClear, isFingerInButton,
      BUTTON_X, BUTTON_Y]

/-- Claim C9 (amended): `handleClear` and the pointer-click clear always
yield an empty Path regardless of state or gesture; the synthetic
finger-position clear of the legacy variant empties the Path, but the same
evaluation then appends the current fingertip, leaving exactly the one-point
path holding the fingertip. -/
theorem c9_clear (cx cy : ℚ) (p : List Pt) (s : DrawState) (lm : List Pt) (tip : Pt)
    (hclick : isFingerInButton cx cy = true)
    (hdraw : s.drawing = true)
    (htip : lm[8]? = some tip)
    (hbtn : isFingerInButton (tip.x * 640) (tip.y * 480) = true) :
    handleClear p = [] ∧
    handleCanvasClick cx cy p = [] ∧
    onResultsLegacy s (some lm) = some ⟨[⟨tip.x * 640, tip.y * 480⟩], true⟩ := by
  refine ⟨rfl, ?_, ?_⟩
  · simp [handleCanvasClick, hclick, handleClear]
  · simp [onResultsLegacy, htip, hbtn, hdraw, handleClear]

/-- Witness for the amended C9 at a concrete non-empty path and a fingertip
inside the button rectangle. -/
theorem c9_clear_witness :
    isFingerInButton 580 450 = true ∧
    (handleClear [⟨1, 2⟩] = [] ∧
      handleCanvasClick 580 450 [⟨1, 2⟩] = [] ∧
      onResultsLegacy ⟨[⟨1, 2⟩], true⟩ (some lmButton) =
        some ⟨[⟨(29/32 : ℚ) * 640, (15/16 : ℚ) * 480⟩], true⟩) :=
  ⟨by norm_num [isFingerInButton, BUTTON_X, BUTTON_Y],
   c9_clear 580 450 [⟨1, 2⟩] ⟨[⟨1, 2⟩], true⟩ lmButton ⟨29/32, 15/16⟩
     (by norm_num [isFingerInButton, BUTTON_X, BUTTON_Y])
     rfl
     (by norm_num [lmButton])
     (by norm_num [isFingerInButton, BUTTON_X, BUTTON_Y])⟩

/-- Claim C10: a one-finger-up frame arriving while drawing is inactive
replaces the whole Path by the singleton holding the current fingertip —
it does not extend the retained stroke — so the Path only ever holds the
most recent stroke. -/
theorem c10_new_stroke (s : DrawState) (lm : List Pt)
    (hd : s.drawing = false) (h : isOnlyOneFingerUpE lm = some true) :
    onResultsDraw s (some lm) = some ⟨[tipScreen lm], true⟩ := by
  rw [onResultsDraw_oneFinger s lm h, hd]
  simp

/-- Witness for C10: a retained two-point stroke is discarded when a new
one-finger-up frame arrives with drawing inactive. -/
theorem c10_new_stroke_witness :
    (DrawState.mk [⟨5, 6⟩, ⟨7, 8⟩] false).drawing = false ∧
    isOnlyOneFingerUpE lmOne = some true ∧
    onResultsDraw ⟨[⟨5, 6⟩, ⟨7, 8⟩], false⟩ (some lmOne) =
      some ⟨[tipScreen lmOne], true⟩ :=
  ⟨rfl,
   by norm_num [isOnlyOneFingerUpE, othersDownE, fingerDown, ptY, lmOne],
   c10_new_stroke ⟨[⟨5, 6⟩, ⟨7, 8⟩], false⟩ lmOne rfl
     (by norm_num [isOnlyOneFingerUpE, othersDownE, fingerDown, ptY, lmOne])⟩

/-- Claim C5: starting from an empty Path with drawing inactive, N
consecutive one-finger-up frames yield exactly the N fingertip points in
arrival order — the first frame starts a singleton path, each later frame
appends, with no smoothing and no de-duplication. -/
theorem c5_consecutive_frames (frames : List (List Pt))
    (hall : ∀ lm ∈ frames, isOnlyOneFingerUpE lm = some true) :
    processFrames ⟨[], false⟩ (frames.map some) =
      some ⟨frames.map tipScreen, !frames.isEmpty⟩ ∧
    (frames.map tipScreen).length = frames.length := by
  refine ⟨?_, List.length_map _ _⟩
  cases frames with
  | nil => rfl
  | cons f fs =>
      have hstep := onResultsDraw_oneFinger ⟨[], false⟩ f (hall f (by simp))
      simp only [] at hstep
      have hrest := processFrames_active fs ⟨[tipScreen f], true⟩ rfl
        (fun lm hm => hall lm (by simp [hm]))
      simp only [processFrames] at hrest
      simp only [processFrames, List.map_cons, List.foldlM_cons, hstep]
      simp [hrest]

/-- Witness for C5 with two concrete one-finger-up frames: the path ends as
the two fingertip points in order. -/
theorem c5_consecutive_frames_witness :
    (∀ lm ∈ [lmOne, lmOne], isOnlyOneFingerUpE lm = some true) ∧
    (processFrames ⟨[], false⟩ (([lmOne, lmOne] : List (List Pt)).map some) =
        some ⟨([lmOne, lmOne] : List (List Pt)).map tipScreen,
          !([lmOne, lmOne] : List (List Pt)).isEmpty⟩ ∧
      (([lmOne, lmOne] : List (List Pt)).map tipScreen).length =
        ([lmOne, lmOne] : List (List Pt)).length) := by
  have hall : ∀ lm ∈ [lmOne, lmOne], isOnlyOneFingerUpE lm = some true := by
    intro lm hm
    have hm' : lm = lmOne ∨ lm = lmOne := by simpa using hm
    rcases hm' with rfl | rfl <;>
      norm_num [isOnlyOneFingerUpE, othersDownE, fingerDown, ptY, lmOne]
  exact ⟨hall, c5_consecutive_frames [lmOne, lmOne] hall⟩

/-- Claim C1: while started and not game-over, a one-finger-up evaluation
marks hit exactly the not-yet-hit birds whose center lies within Euclidean
distance radius + 18 of the mirrored fingertip ((1 - tip.x) * w, tip.y * h)
— all qualifying birds simultaneously — increments the score by 1 per hit
bird, creates one value-1 pop at each hit bird's position, and leaves every
already-hit or out-of-tolerance bird unchanged. -/
theorem c1_hit_test (w h : ℚ) (now : ℤ) (s : GameState) (lm : List Pt) (tip : Pt)
    (x y : ℚ)
    (hone : isOnlyOneFingerUpE lm = some true)
    (htip : lm[8]? = some tip)
    (hx : x = (1 - tip.x) * w) (hy : y = tip.y * h) :
    onResultsGame true false w h now s (some lm) = some (hitBirds x y now s) ∧
    (∀ b : Bird, birdQualifies x y b = true ↔
      (b.hit = false ∧
        Real.sqrt ((distSq x y b.x b.y : ℚ) : ℝ) < ((b.radius + 18 : ℚ) : ℝ))) ∧
    (hitBirds x y now s).birds.length = s.birds.length ∧
    (∀ i : ℕ, ∀ b : Bird, s.birds[i]? = some b →
      (birdQualifies x y b = true →
        (hitBirds x y now s).birds[i]? = some { b with hit := true }) ∧
      (birdQualifies x y b = false →
        (hitBirds x y now s).birds[i]? = some b)) ∧
    (hitBirds x y now s).score =
      s.score + ((s.birds.filter (birdQualifies x y)).length : ℤ) ∧
    (hitBirds x y now s).pops =
      s.pops ++ (s.birds.filter (birdQualifies x y)).map
        (fun b => Pop.mk b.x b.y 1 now) := by
  subst hx
  subst hy
  refine ⟨?_, ?_, ?_, ?_, rfl, rfl⟩
  · simp [onResultsGame, hone, htip]
  · intro b
    unfold birdQualifies
    rw [Bool.and_eq_true, Bool.not_eq_true', distLt_iff_sqrt]
  · simp [hitBirds]
  · intro i b hib
    constructor <;> intro hq <;> simp [hitBirds, List.getElem?_map, hib, hq]

/-- Witness for C1: the spec's worked example — a bird at (100, 100) with
radius 28 and a fingertip whose mirrored screen position is (105, 103)
(distance around 5.8 < 46) — ends with the bird hit, score 1, and one pop
at (100, 100). -/
theorem c1_hit_test_witness :
    isOnlyOneFingerUpE lmHit = some true ∧
    lmHit[8]? = some ⟨107/128, 103/480⟩ ∧
    (105 : ℚ) = (1 - (107/128 : ℚ)) * 640 ∧
    (103 : ℚ) = (103/480 : ℚ) * 480 ∧
    onResultsGame true false 640 480 0
        ⟨[⟨100, 100, 0, 0, 28, false⟩], 0, []⟩ (some lmHit) =
      some (hitBirds 105 103 0 ⟨[⟨100, 100, 0, 0, 28, false⟩], 0, []⟩) ∧
    hitBirds 105 103 0 ⟨[⟨100, 100, 0, 0, 28, false⟩], 0, []⟩ =
      ⟨[⟨100, 100, 0, 0, 28, true⟩], 1, [⟨100, 100, 1, 0⟩]⟩ := by
  have h1 : isOnlyOneFingerUpE lmHit = some true := by
    norm_num [isOnlyOneFingerUpE, othersDownE, fingerDown, ptY, lmHit]
  have h2 : lmHit[8]? = some (⟨107/128, 103/480⟩ : Pt) := by
    norm_num [lmHit]
  have h3 : (105 : ℚ) = (1 - (107/128 : ℚ)) * 640 := by norm_num
  have h4 : (103 : ℚ) = (103/480 : ℚ) * 480 := by norm_num
  have hq : birdQualifies 105 103 ⟨100, 100, 0, 0, 28, false⟩ = true := by
    norm_num [birdQualifies, distLt, distSq]
  refine ⟨h1, h2, h3, h4,
    (c1_hit_test 640 480 0 ⟨[⟨100, 100, 0, 0, 28, false⟩], 0, []⟩ lmHit
      ⟨107/128, 103/480⟩ 105 103 h1 h2 h3 h4).1, ?_⟩
  norm_num [hitBirds, hq]

/-- Claim C6: a spawned bird that is never hit cannot survive: its x moves
by exactly vx (magnitude 4.5) each tick, and within
(w + 2 * radius) / 4.5 + 1 ticks the tick filter rejects it. -/
theorem c6_eventual_removal (w h : ℚ) (fl : Bool) (ry rv : ℚ) (hw : 0 ≤ w) :
    ((randomBird w h fl ry rv).vx = if fl then BIRD_SPEED else -BIRD_SPEED) ∧
    (∀ j : ℕ, (moveBird^[j] (randomBird w h fl ry rv)).x =
      (randomBird w h fl ry rv).x + j * (randomBird w h fl ry rv).vx) ∧
    ∃ k : ℕ, (k : ℚ) ≤ (w + 2 * BIRD_RADIUS) / BIRD_SPEED + 1 ∧
      keepBird w h (moveBird^[k] (randomBird w h fl ry rv)) = false := by
  refine ⟨rfl, fun j => by simp [moveBird_iterate], ?_⟩
  set b := randomBird w h fl ry rv with hb
  set q : ℚ := (w + 2 * BIRD_RADIUS) / BIRD_SPEED with hq
  have hq0 : 0 < q := by
    rw [hq]
    simp only [BIRD_RADIUS, BIRD_SPEED]
    apply div_pos <;> linarith
  have hceil : (0 : ℤ) ≤ ⌈q⌉ := Int.ceil_nonneg hq0.le
  refine ⟨(⌈q⌉).toNat, ?_, ?_⟩
  · have hcast : (((⌈q⌉).toNat : ℕ) : ℚ) = ((⌈q⌉ : ℤ) : ℚ) := by
      exact_mod_cast congrArg Int.cast (Int.toNat_of_nonneg hceil)
    rw [hcast]
    have hlt := Int.ceil_lt_add_one q
    linarith
  · have hcast : (((⌈q⌉).toNat : ℕ) : ℚ) = ((⌈q⌉ : ℤ) : ℚ) := by
      exact_mod_cast congrArg Int.cast (Int.toNat_of_nonneg hceil)
    have hk_ge : q ≤ (((⌈q⌉).toNat : ℕ) : ℚ) := by
      rw [hcast]
      exact Int.le_ceil q
    have hmul : w + 2 * BIRD_RADIUS ≤ (((⌈q⌉).toNat : ℕ) : ℚ) * BIRD_SPEED := by
      have hs : (0 : ℚ) < BIRD_SPEED := by norm_num [BIRD_SPEED]
      have := mul_le_mul_of_nonneg_right hk_ge hs.le
      rwa [hq, div_mul_cancel₀ _ (ne_of_gt hs)] at this
    have hx : (moveBird^[(⌈q⌉).toNat] b).x = b.x + (((⌈q⌉).toNat : ℕ) : ℚ) * b.vx := by
      simp [moveBird_iterate]
    cases hfl : fl with
    | true =>
        have hbx : b.x = -BIRD_RADIUS := by simp [hb, randomBird, hfl]
        have hbvx : b.vx = BIRD_SPEED := by simp [hb, randomBird, hfl]
        have hge : w + BIRD_RADIUS ≤ (moveBird^[(⌈q⌉).toNat] b).x := by
          rw [hx, hbx, hbvx]
          simp only [BIRD_RADIUS] at hmul ⊢
          linarith
        rcases Bool.eq_false_or_eq_true (keepBird w h (moveBird^[(⌈q⌉).toNat] b)) with
          hk1 | hk0
        · exfalso
          have hbound := (keepBird_iff w h _).mp hk1
          linarith [hbound.2.1]
        · exact hk0
    | false =>
        have hbx : b.x = w + BIRD_RADIUS := by simp [hb, randomBird, hfl]
        have hbvx : b.vx = -BIRD_SPEED := by simp [hb, randomBird, hfl]
        have hle : (moveBird^[(⌈q⌉).toNat] b).x ≤ -BIRD_RADIUS := by
          rw [hx, hbx, hbvx]
          simp only [BIRD_RADIUS] at hmul ⊢
          linarith
        rcases Bool.eq_false_or_eq_true (keepBird w h (moveBird^[(⌈q⌉).toNat] b)) with
          hk1 | hk0
        · exfalso
          have hbound := (keepBird_iff w h _).mp hk1
          linarith [hbound.1]
        · exact hk0

/-- Witness for C6 at concrete dimensions 640x480, spawning from the left. -/
theorem c6_eventual_removal_witness :
    (0 : ℚ) ≤ 640 ∧
    (((randomBird 640 480 true 0 0).vx = if true then BIRD_SPEED else -BIRD_SPEED) ∧
      (∀ j : ℕ, (moveBird^[j] (randomBird 640 480 true 0 0)).x =
        (randomBird 640 480 true 0 0).x + j * (randomBird 640 480 true 0 0).vx) ∧
      ∃ k : ℕ, (k : ℚ) ≤ (640 + 2 * BIRD_RADIUS) / BIRD_SPEED + 1 ∧
        keepBird 640 480 (moveBird^[k] (randomBird 640 480 true 0 0)) = false) :=
  ⟨by norm_num, c6_eventual_removal 640 480 true 0 0 (by norm_num)⟩

/-- Claim C7: for every outcome of the random draws (raw samples in [0, 1))
and a playfield of height at least 160, a spawned bird starts exactly on its
spawning edge (x = -radius from the left, x = w + radius from the right) with
horizontal speed 4.5 directed inward, vertical drift within [-0.6, 0.6],
y within [80, h - 80], radius 28, and not hit. -/
theorem c7_randomBird_spec (w h : ℚ) (fl : Bool) (ry rv : ℚ)
    (hry0 : 0 ≤ ry) (hry1 : ry < 1) (hrv0 : 0 ≤ rv) (hrv1 : rv < 1)
    (hh : 160 ≤ h) :
    (fl = true → (randomBird w h fl ry rv).x = -BIRD_RADIUS ∧
      (randomBird w h fl ry rv).vx = BIRD_SPEED) ∧
    (fl = false → (randomBird w h fl ry rv).x = w + BIRD_RADIUS ∧
      (randomBird w h fl ry rv).vx = -BIRD_SPEED) ∧
    -(3/5) ≤ (randomBird w h fl ry rv).vy ∧ (randomBird w h fl ry rv).vy ≤ 3/5 ∧
    80 ≤ (randomBird w h fl ry rv).y ∧ (randomBird w h fl ry rv).y ≤ h - 80 ∧
    (randomBird w h fl ry rv).radius = 28 ∧
    (randomBird w h fl ry rv).hit = false := by
  refine ⟨fun hfl => by simp [randomBird, hfl], fun hfl => by simp [randomBird, hfl],
    ?_, ?_, ?_, ?_, rfl, rfl⟩
  · simp only [randomBird]
    nlinarith
  · simp only [randomBird]
    nlinarith
  · simp only [randomBird]
    nlinarith [mul_nonneg hry0 (by linarith : (0 : ℚ) ≤ h - 160)]
  · simp only [randomBird]
    have hle : ry * (h - 160) ≤ 1 * (h - 160) :=
      mul_le_mul_of_nonneg_right hry1.le (by linarith)
    linarith

/-- Witness for C7 at concrete 640x480 dimensions and mid-range samples. -/
theorem c7_randomBird_spec_witness :
    ((0 : ℚ) ≤ 1/2 ∧ (1/2 : ℚ) < 1 ∧ (160 : ℚ) ≤ 480) ∧
    ((true = true → (randomBird 640 480 true (1/2) (1/2)).x = -BIRD_RADIUS ∧
        (randomBird 640 480 true (1/2) (1/2)).vx = BIRD_SPEED) ∧
      (true = false → (randomBird 640 480 true (1/2) (1/2)).x = 640 + BIRD_RADIUS ∧
        (randomBird 640 480 true (1/2) (1/2)).vx = -BIRD_SPEED) ∧
      -(3/5) ≤ (randomBird 640 480 true (1/2) (1/2)).vy ∧
      (randomBird 640 480 true (1/2) (1/2)).vy ≤ 3/5 ∧
      80 ≤ (randomBird 640 480 true (1/2) (1/2)).y ∧
      (randomBird 640 480 true (1/2) (1/2)).y ≤ 480 - 80 ∧
      (randomBird 640 480 true (1/2) (1/2)).radius = 28 ∧
      (randomBird 640 480 true (1/2) (1/2)).hit = false) :=
  ⟨by norm_num,
   c7_randomBird_spec 640 480 true (1/2) (1/2)
     (by norm_num) (by norm_num) (by norm_num) (by norm_num) (by norm_num)⟩
